import Mathlib

/-!
Verification development for the `go-airstack` GraphQL client
(`airstack/airstack.go`).

The Go code is shallowly embedded as follows.

* JSON values (the external `encoding/json` primitives are collaborators,
  not part of this repository) are modelled by the inductive `Json`.
  A wire body is either bytes that do not parse as JSON (`Body.raw`) or
  bytes whose parse result is a `Json` value (`Body.json`); the raw bytes
  of a parsed value or sub-value (Go's `json.RawMessage`) are identified
  with the canonical rendering `Json.render` of that value.  String
  escaping of special characters is not modelled (no input in this
  development contains one), and JSON numbers are restricted to integers.

* The HTTP transport (`http.Client.Do` plus `io.ReadAll`) is an external
  collaborator; it is modelled as a function `HttpRequest → HttpOutcome`
  supplied as a parameter.  `HttpOutcome.failure` is a failed round trip
  (`client.Do` returns an error), `HttpOutcome.readFailure` a response
  whose body could not be fully read, and `HttpOutcome.success` a
  received response with its status code and body.

* Go functions returning `(T, error)` where exactly one of the pair is
  meaningful (as in this source: every return is either `(value, nil)`
  or `(nil/zero, err)` for the envelope-producing paths) are modelled
  with `Except GoError`.  `json.Marshal` of the request body is total
  here because the query is a string and variables are a `Json` value,
  mirroring that it cannot fail on such input; Go serializes map keys in
  sorted order, hence `"query"` before `"variables"`.
-/

set_option autoImplicit false

namespace Airstack

/-- JSON value, modelling the structured data handled by `encoding/json`. -/
inductive Json where
  | null : Json
  | bool (b : Bool) : Json
  | num (n : Int) : Json
  | str (s : String) : Json
  | arr (elems : List Json) : Json
  | obj (fields : List (String × Json)) : Json
  deriving Repr

mutual

/-- Canonical rendering of a JSON value to its wire bytes (escaping of
special characters inside strings is not modelled). -/
def Json.render : Json → String
  | Json.null => "null"
  | Json.bool b => cond b "true" "false"
  | Json.num n => toString n
  | Json.str s => "\"" ++ s ++ "\""
  | Json.arr elems => "[" ++ Json.renderElems elems ++ "]"
  | Json.obj fields => "\x7b" ++ Json.renderFields fields ++ "\x7d"

/-- Rendering of the comma-separated elements of a JSON array. -/
def Json.renderElems : List Json → String
  | [] => ""
  | [v] => Json.render v
  | v :: rest => Json.render v ++ "," ++ Json.renderElems rest

/-- Rendering of the comma-separated members of a JSON object. -/
def Json.renderFields : List (String × Json) → String
  | [] => ""
  | [(k, v)] => "\"" ++ k ++ "\":" ++ Json.render v
  | (k, v) :: rest => "\"" ++ k ++ "\":" ++ Json.render v ++ "," ++ Json.renderFields rest

end

/-- Lookup of a key in the Go map built by unmarshalling a JSON object:
when a key occurs several times in the object, the last occurrence wins. -/
def goLookup (fields : List (String × Json)) (key : String) : Option Json :=
  List.lookup key fields.reverse

/-- Response body as handed to this code by the transport: either bytes
that are not valid JSON, or bytes whose JSON parse result is known. -/
inductive Body where
  | raw (s : String) : Body
  | json (v : Json) : Body
  deriving Repr

/-- Go `error` values arising in this code: transport failures and
`encoding/json` failures (messages are representative). -/
inductive GoError where
  | transportFailure (msg : String) : GoError
  | jsonFailure (msg : String) : GoError
  deriving Repr, DecidableEq

/-- Text produced by `Error()` on a `GoError`, as used by `fmt.Sprintf`
with the `%s` verb. -/
def GoError.message : GoError → String
  | GoError.transportFailure m => m
  | GoError.jsonFailure m => m

/-- Rendering of an `error` value by `fmt`'s `%s` verb: a nil error
interface prints as `%!s(<nil>)`, a non-nil one prints its message. -/
def errText : Option GoError → String
  | none => "%!s(<nil>)"
  | some e => e.message

/-- HTTP request as assembled by `SendRequest` from its arguments
(`http.NewRequestWithContext` plus the `req.Header.Add` loop; the Go
header map is modelled as an association list in construction order). -/
structure HttpRequest where
  method : String
  url : String
  headers : List (String × String)
  body : String
  deriving Repr

/-- Outcome of one HTTP round trip performed by the transport. -/
inductive HttpOutcome where
  | failure (e : GoError) : HttpOutcome
  | readFailure (status : Nat) (e : GoError) : HttpOutcome
  | success (status : Nat) (body : Body) : HttpOutcome
  deriving Repr

/-- Transport that answers every request with the same fixed outcome. -/
def constTransport (o : HttpOutcome) : HttpRequest → HttpOutcome :=
  fun _ => o

/-- Constant `successStatusCode = 200` from the source. -/
def successStatusCode : Nat := 200

/-- Constant `unprocessableEntityStatus = 422` from the source. -/
def unprocessableEntityStatus : Nat := 422

/-- Constant `apiEndpointProd` from the source. -/
def apiEndpointProd : String := "https://api.airstack.xyz/gql"

/-- Go `json.Unmarshal` of bytes into `map[string]json.RawMessage`
(and equally into `map[string]interface\x7b\x7d`): nil bytes fail with
"unexpected end of JSON input"; non-JSON bytes fail; a JSON object
yields its members; JSON `null` succeeds leaving the map nil (empty);
any other JSON value fails with a type error. -/
def unmarshalRawMap : Option Body → Except GoError (List (String × Json))
  | none => Except.error (GoError.jsonFailure "unexpected end of JSON input")
  | some (Body.raw s) => Except.error (GoError.jsonFailure ("invalid JSON: " ++ s))
  | some (Body.json (Json.obj fields)) => Except.ok fields
  | some (Body.json Json.null) => Except.ok []
  | some (Body.json _) =>
      Except.error (GoError.jsonFailure "cannot unmarshal JSON value into map")

/-- The advisory validation done by `SendRequest` on a non-success body:
`json.Unmarshal(response, &map[string]interface\x7b\x7d\x7b\x7d)`, keeping only
whether it failed. -/
def unmarshalAnyMap (b : Option Body) : Except GoError Unit :=
  (unmarshalRawMap b).map (fun _ => ())

/-- Result of `SendRequest` after the transport outcome is known,
mirroring the body of `SendRequest` line by line: a failed round trip
returns `(nil, 0, err)`; a failed body read returns
`(nil, resp.StatusCode, err)`; a received response returns the body and
status, with the advisory JSON validation error when the status differs
from `successStatusCode` and the body does not unmarshal into a map. -/
def sendRequestOutcome : HttpOutcome → Option Body × Nat × Option GoError
  | HttpOutcome.failure e => (none, 0, some e)
  | HttpOutcome.readFailure status e => (none, status, some e)
  | HttpOutcome.success status body =>
      if status != successStatusCode then
        match unmarshalAnyMap (some body) with
        | Except.error e => (some body, status, some e)
        | Except.ok _ => (some body, status, none)
      else
        (some body, status, none)

/-- The function `SendRequest`: it assembles the request from its
arguments, performs one round trip through the transport, and
post-processes the outcome as `sendRequestOutcome` describes. -/
def SendRequest (transport : HttpRequest → HttpOutcome) (method url : String)
    (headers : List (String × String)) (body : String) :
    Option Body × Nat × Option GoError :=
  sendRequestOutcome (transport { method := method, url := url, headers := headers, body := body })

/-- The structure `AirstackClient`. -/
structure AirstackClient where
  APIKey : String
  URL : String
  deriving Repr

/-- The function `NewAirstackClient`. -/
def NewAirstackClient (apiKey : String) : AirstackClient :=
  { APIKey := apiKey, URL := apiEndpointProd }

/-- The structure `QueryResponse`.  `Data` is a `json.RawMessage`
(`none` models nil bytes; `some v` models the raw bytes of sub-value
`v`); function-typed fields are modelled by `Option Unit` recording only
nil versus non-nil. -/
structure QueryResponse where
  Data : Option Json
  StatusCode : Nat
  Error : String
  HasNextPage : Bool
  HasPrevPage : Bool
  NextPageFunc : Option Unit
  PrevPageFunc : Option Unit
  deriving Repr

/-- The string `fmt.Sprintf("HTTP error: %s, Status Code: %d", err, statusCode)`. -/
def formatHTTPError (err : Option GoError) (statusCode : Nat) : String :=
  "HTTP error: " ++ errText err ++ ", Status Code: " ++ toString statusCode

/-- The method `ExecuteQuery`, parameterized by the transport.  It
marshals the request body (`"query"` sorts before `"variables"`), sets
the two headers, POSTs through `SendRequest`, and interprets the
outcome exactly as the source does. -/
def ExecuteQuery (transport : HttpRequest → HttpOutcome) (client : AirstackClient)
    (query : String) (vars : Json) : Except GoError QueryResponse :=
  match SendRequest transport "POST" client.URL
      [("Content-Type", "application/json"), ("Authorization", client.APIKey)]
      (Json.render (Json.obj [("query", Json.str query), ("variables", vars)])) with
  | (response, statusCode, err) =>
    if err.isSome || statusCode != successStatusCode then
      Except.ok { Data := none, StatusCode := statusCode,
                  Error := formatHTTPError err statusCode,
                  HasNextPage := false, HasPrevPage := false,
                  NextPageFunc := none, PrevPageFunc := none }
    else
      match unmarshalRawMap response with
      | Except.error e => Except.error e
      | Except.ok respData =>
        match goLookup respData "errors" with
        | some errorField =>
            Except.ok { Data := none, StatusCode := statusCode,
                        Error := Json.render errorField,
                        HasNextPage := false, HasPrevPage := false,
                        NextPageFunc := none, PrevPageFunc := none }
        | none =>
            Except.ok { Data := goLookup respData "data", StatusCode := statusCode,
                        Error := "",
                        HasNextPage := false, HasPrevPage := false,
                        NextPageFunc := none, PrevPageFunc := none }

/-- The structure `TokenBalance`. -/
structure TokenBalance where
  Amount : String
  FormattedAmount : String
  Blockchain : String
  TokenAddress : String
  TokenId : String
  deriving Repr, DecidableEq

/-- Inner anonymous struct of `respData` in `GetTokenBalances`, holding
the slice under the JSON key `TokenBalance`. -/
structure TokenBalanceList where
  TokenBalance : List TokenBalance
  deriving Repr, DecidableEq

/-- The anonymous struct `respData` in `GetTokenBalances`, holding the
object under the JSON key `TokenBalances`. -/
structure RespData where
  TokenBalances : TokenBalanceList
  deriving Repr, DecidableEq

/-- Go `json.Unmarshal` of a JSON value into a struct field of type
`string` (tag-exact key matching): an absent key or JSON `null` leaves
the zero value `""`; a JSON string is taken verbatim; any other value
is a type error. -/
def decodeStringField (fields : List (String × Json)) (key : String) :
    Except GoError String :=
  match goLookup fields key with
  | none => Except.ok ""
  | some Json.null => Except.ok ""
  | some (Json.str s) => Except.ok s
  | some _ =>
      Except.error (GoError.jsonFailure ("cannot unmarshal JSON value into string field " ++ key))

/-- Go `json.Unmarshal` of one array element into a `TokenBalance`
struct: `null` leaves the zero struct, an object decodes the five
tagged string fields (unknown keys ignored), anything else is a type
error. -/
def decodeTokenBalance : Json → Except GoError TokenBalance
  | Json.null =>
      Except.ok { Amount := "", FormattedAmount := "", Blockchain := "",
                  TokenAddress := "", TokenId := "" }
  | Json.obj fields =>
      match decodeStringField fields "amount" with
      | Except.error e => Except.error e
      | Except.ok amount =>
      match decodeStringField fields "formattedAmount" with
      | Except.error e => Except.error e
      | Except.ok formattedAmount =>
      match decodeStringField fields "blockchain" with
      | Except.error e => Except.error e
      | Except.ok blockchain =>
      match decodeStringField fields "tokenAddress" with
      | Except.error e => Except.error e
      | Except.ok tokenAddress =>
      match decodeStringField fields "tokenId" with
      | Except.error e => Except.error e
      | Except.ok tokenId =>
          Except.ok { Amount := amount, FormattedAmount := formattedAmount,
                      Blockchain := blockchain, TokenAddress := tokenAddress,
                      TokenId := tokenId }
  | _ => Except.error (GoError.jsonFailure "cannot unmarshal JSON value into TokenBalance")

/-- Go `json.Unmarshal` of a JSON array into `[]TokenBalance`,
element by element. -/
def decodeTokenBalanceElems : List Json → Except GoError (List TokenBalance)
  | [] => Except.ok []
  | v :: rest =>
      match decodeTokenBalance v with
      | Except.error e => Except.error e
      | Except.ok tb =>
          match decodeTokenBalanceElems rest with
          | Except.error e => Except.error e
          | Except.ok tbs => Except.ok (tb :: tbs)

/-- Go `json.Unmarshal(resp.Data, &respData)` in `GetTokenBalances`:
nil raw bytes fail with "unexpected end of JSON input"; `null` or an
absent key leaves the zero struct (nil slice); objects decode down the
`TokenBalances` / `TokenBalance` path with absent keys giving zero
values; a value of the wrong kind at any level is a type error. -/
def unmarshalRespData : Option Json → Except GoError RespData
  | none => Except.error (GoError.jsonFailure "unexpected end of JSON input")
  | some Json.null => Except.ok { TokenBalances := { TokenBalance := [] } }
  | some (Json.obj fields) =>
      match goLookup fields "TokenBalances" with
      | none => Except.ok { TokenBalances := { TokenBalance := [] } }
      | some Json.null => Except.ok { TokenBalances := { TokenBalance := [] } }
      | some (Json.obj innerFields) =>
          match goLookup innerFields "TokenBalance" with
          | none => Except.ok { TokenBalances := { TokenBalance := [] } }
          | some Json.null => Except.ok { TokenBalances := { TokenBalance := [] } }
          | some (Json.arr elems) =>
              match decodeTokenBalanceElems elems with
              | Except.error e => Except.error e
              | Except.ok tbs => Except.ok { TokenBalances := { TokenBalance := tbs } }
          | some _ =>
              Except.error (GoError.jsonFailure "cannot unmarshal JSON value into []TokenBalance")
      | some _ =>
          Except.error (GoError.jsonFailure "cannot unmarshal JSON value into struct TokenBalances")
  | some _ => Except.error (GoError.jsonFailure "cannot unmarshal JSON value into struct respData")

/-- The fixed GraphQL query text inside `GetTokenBalances` (a Go raw
string literal, reproduced with explicit newlines and tabs). -/
def tokenBalancesQuery : String :=
  "\n\tquery GetTokensHeldByWalletAddress($identity: Identity, $tokenType: [TokenType!], $blockchain: TokenBlockchain!, $limit: Int) \x7b\n\t\tTokenBalances(\n\t\t\tinput: \x7bfilter: \x7bowner: \x7b_eq: $identity\x7d, tokenType: \x7b_in: $tokenType\x7d\x7d, blockchain: $blockchain, limit: $limit\x7d\n\t\t) \x7b\n\t\t\tTokenBalance \x7b\n\t\t\t\tamount\n\t\t\t\tformattedAmount\n\t\t\t\tblockchain\n\t\t\t\ttokenAddress\n\t\t\t\ttokenId\n\t\t\t\t// Include other fields as needed\n\t\t\t\x7d\n\t\t\x7d\n\t\x7d\n\t"

/-- The method `GetTokenBalances`, parameterized by the transport: it
runs `ExecuteQuery` with the fixed query, propagates its call-level
error, unmarshals the envelope's `Data` into `respData`, propagates the
decode error, and returns `respData.TokenBalances.TokenBalance`. -/
def GetTokenBalances (transport : HttpRequest → HttpOutcome)
    (client : AirstackClient) (vars : Json) :
    Except GoError (List TokenBalance) :=
  match ExecuteQuery transport client tokenBalancesQuery vars with
  | Except.error e => Except.error e
  | Except.ok resp =>
      match unmarshalRespData resp.Data with
      | Except.error e => Except.error e
      | Except.ok respData => Except.ok respData.TokenBalances.TokenBalance

/-! Claim-side definitions: descriptions taken from the specification,
to be compared against the embedded code. -/

/-- Specification-side description of the single HTTP request that
`ExecuteQuery` sends: method POST, the client's URL, exactly the
`Content-Type` and `Authorization` headers (the latter carrying the raw
API key), and the serialized `\x7b query, variables \x7d` body. -/
def executeQueryRequest (client : AirstackClient) (query : String) (vars : Json) :
    HttpRequest :=
  { method := "POST", url := client.URL,
    headers := [("Content-Type", "application/json"), ("Authorization", client.APIKey)],
    body := Json.render (Json.obj [("query", Json.str query), ("variables", vars)]) }

/-- Specification-side description of the advisory validation result
`SendRequest` attaches to a non-success response: `none` when the body
unmarshals as a map, the unmarshal error otherwise. -/
def bodyValidation (body : Body) : Option GoError :=
  match unmarshalAnyMap (some body) with
  | Except.error e => some e
  | Except.ok _ => none

/-- JSON object encoding a well-formed token-balance record, as a
synthetic server would serialize it. -/
def encodeTokenBalance (tb : TokenBalance) : Json :=
  Json.obj [("amount", Json.str tb.Amount),
            ("formattedAmount", Json.str tb.FormattedAmount),
            ("blockchain", Json.str tb.Blockchain),
            ("tokenAddress", Json.str tb.TokenAddress),
            ("tokenId", Json.str tb.TokenId)]

/-- Response body of a synthetic server returning the given well-formed
token-balance records under `data.TokenBalances.TokenBalance`. -/
def tokenBalancesBody (records : List TokenBalance) : Body :=
  Body.json (Json.obj [("data",
    Json.obj [("TokenBalances",
      Json.obj [("TokenBalance", Json.arr (records.map encodeTokenBalance))])])])

/-- Boolean test that the first character list starts the second. -/
def charsLead : List Char → List Char → Bool
  | [], _ => true
  | _ :: _, [] => false
  | c :: cs, d :: ds => c == d && charsLead cs ds

/-- Boolean test that the first character list occurs contiguously inside
the second. -/
def charsInside (t : List Char) : List Char → Bool
  | [] => charsLead t []
  | d :: ds => charsLead t (d :: ds) || charsInside t ds

/-- Substring test over strings, via testing on character lists:
`containsSubstr s t` holds when `t` occurs inside `s`. -/
def containsSubstr (s t : String) : Bool :=
  charsInside t.data s.data

/-- Concrete client used by witnesses and counterexamples. -/
def client1 : AirstackClient := NewAirstackClient "test-api-key"

/-- Concrete transport: every request is answered with HTTP 422 and the
body `\x7b"message":"bad request"\x7d`. -/
def transport422 : HttpRequest → HttpOutcome :=
  constTransport (HttpOutcome.success 422 (Body.json (Json.obj [("message", Json.str "bad request")])))

/-- Envelope produced by `ExecuteQuery` over `transport422`. -/
def envelope422 : QueryResponse :=
  { Data := none, StatusCode := 422,
    Error := "HTTP error: %!s(<nil>), Status Code: 422",
    HasNextPage := false, HasPrevPage := false,
    NextPageFunc := none, PrevPageFunc := none }

/-- Concrete transport: every request is answered with HTTP 200 and the
body `\x7b\x7d` (a valid JSON mapping with neither `data` nor `errors`). -/
def transportEmptyObj : HttpRequest → HttpOutcome :=
  constTransport (HttpOutcome.success 200 (Body.json (Json.obj [])))

/-- Envelope produced by `ExecuteQuery` over `transportEmptyObj`: neither
the error string nor the data bytes are set. -/
def envelopeEmptyObj : QueryResponse :=
  { Data := none, StatusCode := 200, Error := "",
    HasNextPage := false, HasPrevPage := false,
    NextPageFunc := none, PrevPageFunc := none }

/-- Concrete transport agreeing with `transport422` on every POST
request and failing otherwise; used to exercise the fact that
`ExecuteQuery` consults the transport only on its one POST request. -/
def transportPOSTOnly : HttpRequest → HttpOutcome :=
  fun r =>
    if r.method == "POST" then
      HttpOutcome.success 422 (Body.json (Json.obj [("message", Json.str "bad request")]))
    else
      HttpOutcome.failure (GoError.transportFailure "unexpected method")

/-- Concrete transport: every request is answered with HTTP 200 and the
body `null` (valid JSON, but not a JSON mapping). -/
def transportNullBody : HttpRequest → HttpOutcome :=
  constTransport (HttpOutcome.success 200 (Body.json Json.null))

/-! Helper lemmas shared by the claim theorems. -/

/-- Lemma: the formatted HTTP-error string is never empty (it starts
with the literal text `HTTP error: `). -/
theorem formatHTTPError_ne_empty (err : Option GoError) (st : Nat) :
    formatHTTPError err st ≠ "" := by
  intro h
  have h2 := congrArg String.data h
  simp [formatHTTPError, String.data_append] at h2

/-- Lemma: every envelope `ExecuteQuery` returns with a nonempty error
string has `Data` unset: both the HTTP-failure branch and the
`errors`-field branch build the envelope with nil `Data`, and the data
branch sets `Error` to the empty string. -/
theorem executeQuery_error_imp_data_none (tp : HttpRequest → HttpOutcome)
    (c : AirstackClient) (q : String) (v : Json) (r : QueryResponse)
    (h : ExecuteQuery tp c q v = Except.ok r) (he : r.Error ≠ "") :
    r.Data = none := by
  unfold ExecuteQuery at h
  split at h
  split at h
  · injection h with h
    subst h
    rfl
  · split at h
    · exact Except.noConfusion h
    · split at h
      · injection h with h
        subst h
        rfl
      · injection h with h
        subst h
        exact absurd rfl he

/-- Lemma: on a received response with status other than 200,
`sendRequestOutcome` returns the body and status together with the
advisory validation result. -/
theorem sendRequestOutcome_non200 (st : Nat) (body : Body) (hst : st ≠ 200) :
    sendRequestOutcome (HttpOutcome.success st body) = (some body, st, bodyValidation body) := by
  have hb : (st != successStatusCode) = true := by
    simp [successStatusCode]
    exact hst
  simp only [sendRequestOutcome, bodyValidation, hb, if_true]
  cases hu : unmarshalAnyMap (some body) <;> simp [hu]

/-- Lemma: on a received response with status 200, `sendRequestOutcome`
returns the body, the status, and no error, skipping the validation. -/
theorem sendRequestOutcome_200 (body : Body) :
    sendRequestOutcome (HttpOutcome.success 200 body) = (some body, 200, none) := by
  simp [sendRequestOutcome, successStatusCode]

/-- Lemma: `ExecuteQuery` against a synthetic server returning encoded
token-balance records yields the envelope holding those records' JSON
under `Data`. -/
theorem executeQuery_tokenBody (c : AirstackClient) (q : String) (v : Json)
    (records : List TokenBalance) :
    ExecuteQuery (constTransport (HttpOutcome.success 200 (tokenBalancesBody records))) c q v
      = Except.ok
        { Data := some (Json.obj [("TokenBalances",
            Json.obj [("TokenBalance", Json.arr (records.map encodeTokenBalance))])]),
          StatusCode := 200, Error := "",
          HasNextPage := false, HasPrevPage := false,
          NextPageFunc := none, PrevPageFunc := none } := rfl

/-- Lemma: decoding an encoded token-balance record restores it
byte-for-byte. -/
theorem decodeTokenBalance_encode (tb : TokenBalance) :
    decodeTokenBalance (encodeTokenBalance tb) = Except.ok tb := rfl

/-- Lemma: decoding a list of encoded token-balance records restores the
list element by element. -/
theorem decodeTokenBalanceElems_encode (records : List TokenBalance) :
    decodeTokenBalanceElems (records.map encodeTokenBalance) = Except.ok records := by
  induction records with
  | nil => rfl
  | cons tb rest ih =>
    simp [decodeTokenBalanceElems, decodeTokenBalance_encode, ih]

/-- Lemma: unmarshalling the `data` payload of a synthetic token-balance
response yields exactly the encoded records. -/
theorem unmarshalRespData_encode (records : List TokenBalance) :
    unmarshalRespData (some (Json.obj [("TokenBalances",
        Json.obj [("TokenBalance", Json.arr (records.map encodeTokenBalance))])]))
      = Except.ok { TokenBalances := { TokenBalance := records } } := by
  have hd := decodeTokenBalanceElems_encode records
  show (match decodeTokenBalanceElems (records.map encodeTokenBalance) with
        | Except.error e => Except.error e
        | Except.ok tbs =>
            (Except.ok { TokenBalances := { TokenBalance := tbs } } : Except GoError RespData))
      = Except.ok { TokenBalances := { TokenBalance := records } }
  rw [hd]

/-! Claim theorems. -/

/-- C1: for every response with HTTP status code different from 200
(including 422), `ExecuteQuery` returns with no call-level error and an
envelope whose `Error` field is a formatted string containing the
decimal status code and whose `Data` field is unset. -/
theorem executeQuery_non200_envelope (tp : HttpRequest → HttpOutcome) (c : AirstackClient)
    (q : String) (v : Json) (st : Nat) (body : Body)
    (hreq : tp (executeQueryRequest c q v) = HttpOutcome.success st body)
    (hst : st ≠ 200) :
    ∃ r : QueryResponse, ExecuteQuery tp c q v = Except.ok r ∧
      r.Data = none ∧ r.StatusCode = st ∧
      ∃ pre post, r.Error = pre ++ toString st ++ post := by
  have hb : (st != successStatusCode) = true := by
    simp [successStatusCode]
    exact hst
  unfold executeQueryRequest at hreq
  unfold ExecuteQuery SendRequest
  rw [hreq, sendRequestOutcome_non200 st body hst]
  simp only [hb, Bool.or_true, if_true]
  refine ⟨_, rfl, rfl, rfl,
    ⟨"HTTP error: " ++ errText (bodyValidation body) ++ ", Status Code: ", "", ?_⟩⟩
  simp [formatHTTPError, String.append_assoc]

/-- Witness for C1 at the spec's scenario: HTTP 422 with body
`\x7b"message":"bad request"\x7d` yields an error-free call whose envelope
has no data and an error string containing `422`. -/
theorem executeQuery_non200_envelope_witness :
    ∃ r : QueryResponse,
      ExecuteQuery transport422 client1 "q" (Json.obj []) = Except.ok r ∧
      r.Data = none ∧ r.StatusCode = 422 ∧
      ∃ pre post, r.Error = pre ++ toString 422 ++ post :=
  executeQuery_non200_envelope transport422 client1 "q" (Json.obj []) 422
    (Body.json (Json.obj [("message", Json.str "bad request")])) rfl (by decide)

/-- C2: for every HTTP 200 response whose body is a valid JSON mapping
with no `errors` member, `ExecuteQuery` returns with no call-level error
and an envelope with `Error` unset, `StatusCode` 200, and `Data` equal
to the body's `data` member verbatim (unset when the body has none). -/
theorem executeQuery_ok_data_verbatim (tp : HttpRequest → HttpOutcome) (c : AirstackClient)
    (q : String) (v : Json) (fields : List (String × Json))
    (hreq : tp (executeQueryRequest c q v) = HttpOutcome.success 200 (Body.json (Json.obj fields)))
    (hne : goLookup fields "errors" = none) :
    ExecuteQuery tp c q v = Except.ok
      { Data := goLookup fields "data", StatusCode := 200, Error := "",
        HasNextPage := false, HasPrevPage := false,
        NextPageFunc := none, PrevPageFunc := none } := by
  unfold executeQueryRequest at hreq
  unfold ExecuteQuery SendRequest
  rw [hreq, sendRequestOutcome_200]
  simp [successStatusCode, unmarshalRawMap, hne]

/-- Witness for C2: a 200 response with body
`\x7b"data":\x7b"x":1\x7d\x7d` yields the envelope carrying that `data`
value verbatim and no error. -/
theorem executeQuery_ok_data_verbatim_witness :
    ExecuteQuery (constTransport (HttpOutcome.success 200
        (Body.json (Json.obj [("data", Json.obj [("x", Json.num 1)])]))))
      client1 "q" (Json.obj [])
    = Except.ok
      { Data := goLookup [("data", Json.obj [("x", Json.num 1)])] "data",
        StatusCode := 200, Error := "",
        HasNextPage := false, HasPrevPage := false,
        NextPageFunc := none, PrevPageFunc := none } :=
  executeQuery_ok_data_verbatim _ client1 "q" (Json.obj []) _ rfl rfl

/-- C3: for every HTTP 200 response whose body is a valid JSON mapping
containing an `errors` member, `ExecuteQuery` returns an envelope whose
`Error` equals the serialized `errors` member, whose `Data` is unset,
and whose status code is the received 200. -/
theorem executeQuery_errors_field_envelope (tp : HttpRequest → HttpOutcome)
    (c : AirstackClient) (q : String) (v : Json)
    (fields : List (String × Json)) (ef : Json)
    (hreq : tp (executeQueryRequest c q v) = HttpOutcome.success 200 (Body.json (Json.obj fields)))
    (he : goLookup fields "errors" = some ef) :
    ExecuteQuery tp c q v = Except.ok
      { Data := none, StatusCode := 200, Error := Json.render ef,
        HasNextPage := false, HasPrevPage := false,
        NextPageFunc := none, PrevPageFunc := none } := by
  unfold executeQueryRequest at hreq
  unfold ExecuteQuery SendRequest
  rw [hreq, sendRequestOutcome_200]
  simp [successStatusCode, unmarshalRawMap, he]

/-- Witness for C3: a 200 response with body
`\x7b"data":null,"errors":["boom"]\x7d` yields an envelope whose error is
the serialized `errors` member and whose data is unset. -/
theorem executeQuery_errors_field_envelope_witness :
    ExecuteQuery (constTransport (HttpOutcome.success 200
        (Body.json (Json.obj [("data", Json.null), ("errors", Json.arr [Json.str "boom"])]))))
      client1 "q" (Json.obj [])
    = Except.ok
      { Data := none, StatusCode := 200,
        Error := Json.render (Json.arr [Json.str "boom"]),
        HasNextPage := false, HasPrevPage := false,
        NextPageFunc := none, PrevPageFunc := none } :=
  executeQuery_errors_field_envelope _ client1 "q" (Json.obj []) _ _ rfl rfl

/-- Counterexample for C4: for the HTTP 422 response, the envelope has a
nonempty `Error`, yet `GetTokenBalances` does not return an error
signalling that API-level failure: the source never inspects
`resp.Error`, so the call fails only because unmarshalling the nil
`Data` bytes fails, with the generic decode message
`unexpected end of JSON input`, which neither equals nor contains the
envelope's error string. -/
theorem getTokenBalances_apiError_counterexample :
    ExecuteQuery transport422 client1 tokenBalancesQuery (Json.obj []) = Except.ok envelope422 ∧
    envelope422.Error ≠ "" ∧
    GetTokenBalances transport422 client1 (Json.obj [])
      = Except.error (GoError.jsonFailure "unexpected end of JSON input") ∧
    containsSubstr "unexpected end of JSON input" envelope422.Error = false :=
  ⟨rfl, by decide, rfl, by decide⟩

/-- C4 (amended): `GetTokenBalances` fails with a call-level error in
exactly two cases: when `ExecuteQuery` itself fails, the error is
propagated unchanged; otherwise the call is exactly the unmarshalling
of the envelope's `Data`, so it fails precisely when that decode fails.
An envelope whose `Error` field is set always has nil `Data`, so it does
make the call fail, but with the generic decode error on empty input
rather than a distinct API-level error. -/
theorem getTokenBalances_error_cases (tp : HttpRequest → HttpOutcome)
    (c : AirstackClient) (v : Json) :
    (∀ e, ExecuteQuery tp c tokenBalancesQuery v = Except.error e →
        GetTokenBalances tp c v = Except.error e) ∧
    (∀ r, ExecuteQuery tp c tokenBalancesQuery v = Except.ok r →
        GetTokenBalances tp c v =
          (unmarshalRespData r.Data).map (fun d => d.TokenBalances.TokenBalance)) ∧
    (∀ r, ExecuteQuery tp c tokenBalancesQuery v = Except.ok r → r.Error ≠ "" →
        GetTokenBalances tp c v =
          Except.error (GoError.jsonFailure "unexpected end of JSON input")) := by
  refine ⟨?_, ?_, ?_⟩
  · intro e h
    simp [GetTokenBalances, h]
  · intro r h
    simp only [GetTokenBalances, h]
    cases hu : unmarshalRespData r.Data <;> simp [hu, Except.map]
  · intro r h he
    have hd := executeQuery_error_imp_data_none tp c tokenBalancesQuery v r h he
    simp [GetTokenBalances, h, hd, unmarshalRespData]

/-- Witness for the amended C4: over the 422 transport the envelope
carries an error, and `GetTokenBalances` fails with the decode error on
empty input. -/
theorem getTokenBalances_error_cases_witness :
    GetTokenBalances transport422 client1 (Json.obj [])
      = Except.error (GoError.jsonFailure "unexpected end of JSON input") :=
  (getTokenBalances_error_cases transport422 client1 (Json.obj [])).2.2
    envelope422 rfl (by decide)

/-- Counterexample for C5: an HTTP 200 response with body `\x7b\x7d` (a
valid JSON mapping with no `data` member) produces an envelope in which
neither the `Error` field is set nor the `Data` field is usable (it is
nil, on which any decode fails), so "exactly one of the two" is false. -/
theorem executeQuery_exactly_one_counterexample :
    ExecuteQuery transportEmptyObj client1 "q" (Json.obj []) = Except.ok envelopeEmptyObj ∧
    ¬ ((envelopeEmptyObj.Error ≠ "" ∨ envelopeEmptyObj.Data ≠ none) ∧
       ¬ (envelopeEmptyObj.Error ≠ "" ∧ envelopeEmptyObj.Data ≠ none)) :=
  ⟨rfl, fun h => h.1.elim (fun h1 => h1 rfl) (fun h2 => h2 rfl)⟩

/-- C5 (amended): for every envelope returned by `ExecuteQuery`, at most
one of \x7bthe `Error` field is set, the `Data` field is usable\x7d holds,
and a status code different from 200 always implies the `Error` field is
set; but "exactly one" fails because an HTTP 200 body without a `data`
member yields an envelope with neither. -/
theorem executeQuery_envelope_exclusion (tp : HttpRequest → HttpOutcome)
    (c : AirstackClient) (q : String) (v : Json) (r : QueryResponse)
    (h : ExecuteQuery tp c q v = Except.ok r) :
    (¬ (r.Error ≠ "" ∧ r.Data ≠ none)) ∧ (r.StatusCode ≠ 200 → r.Error ≠ "") := by
  unfold ExecuteQuery at h
  split at h
  rename_i xsc response statusCode err heq
  split at h
  case isTrue hc =>
    injection h with h
    subst h
    constructor
    · rintro ⟨h1, h2⟩
      exact h2 rfl
    · intro hne
      exact formatHTTPError_ne_empty err statusCode
  case isFalse hc =>
    have hst200 : statusCode = 200 := by
      simp [successStatusCode] at hc
      exact hc.2
    split at h
    · exact Except.noConfusion h
    · split at h
      · injection h with h
        subst h
        constructor
        · rintro ⟨h1, h2⟩
          exact h2 rfl
        · intro hne
          exact absurd hst200 hne
      · injection h with h
        subst h
        constructor
        · rintro ⟨h1, h2⟩
          exact h1 rfl
        · intro hne
          exact absurd hst200 hne

/-- Witness for the amended C5 at the 422 envelope: error and data are
mutually exclusive there, and the non-success status forces the error
string to be set. -/
theorem executeQuery_envelope_exclusion_witness :
    (¬ (envelope422.Error ≠ "" ∧ envelope422.Data ≠ none)) ∧ envelope422.Error ≠ "" :=
  ⟨(executeQuery_envelope_exclusion transport422 client1 "q" (Json.obj []) envelope422 rfl).1,
   (executeQuery_envelope_exclusion transport422 client1 "q" (Json.obj []) envelope422 rfl).2
     (by decide)⟩

/-- C6: for every response received with a non-success status code,
`SendRequest` does not treat the status itself as an error: it returns
the status code and body as data in every case, attaching only the
advisory JSON validation result, which is an error exactly when the
body does not unmarshal as a map and even then accompanies the returned
body and status. -/
theorem sendRequest_non200_body_returned (tp : HttpRequest → HttpOutcome) (m u : String)
    (hs : List (String × String)) (b : String) (st : Nat) (body : Body)
    (hreq : tp { method := m, url := u, headers := hs, body := b } = HttpOutcome.success st body)
    (hst : st ≠ 200) :
    SendRequest tp m u hs b = (some body, st, bodyValidation body) := by
  unfold SendRequest
  rw [hreq, sendRequestOutcome_non200 st body hst]

/-- Witness for C6: an HTTP 500 response whose body is not JSON is still
returned (body and status) alongside the validation error. -/
theorem sendRequest_non200_body_returned_witness :
    SendRequest (constTransport (HttpOutcome.success 500 (Body.raw "oops")))
      "POST" "https://api.airstack.xyz/gql" [] ""
    = (some (Body.raw "oops"), 500, bodyValidation (Body.raw "oops")) :=
  sendRequest_non200_body_returned _ "POST" "https://api.airstack.xyz/gql" [] ""
    500 (Body.raw "oops") rfl (by decide)

/-- C7: given a server responding HTTP 200 with N well-formed
token-balance records under `data.TokenBalances.TokenBalance`,
`GetTokenBalances` returns exactly those N records with every field
matching byte-for-byte. -/
theorem getTokenBalances_roundtrip (c : AirstackClient) (v : Json)
    (records : List TokenBalance) :
    GetTokenBalances (constTransport (HttpOutcome.success 200 (tokenBalancesBody records))) c v
      = Except.ok records := by
  simp [GetTokenBalances, executeQuery_tokenBody, unmarshalRespData_encode]

/-- C8: `ExecuteQuery` sends exactly one request, with method POST, the
client's URL, exactly the headers `Content-Type: application/json` and
`Authorization` carrying the API key verbatim, and the body serializing
`\x7bquery, variables\x7d`; its result depends on the transport only
through the answer to that one request. -/
theorem executeQuery_request_shape (c : AirstackClient) (q : String) (v : Json) :
    (executeQueryRequest c q v).method = "POST" ∧
    (executeQueryRequest c q v).url = c.URL ∧
    (executeQueryRequest c q v).headers
      = [("Content-Type", "application/json"), ("Authorization", c.APIKey)] ∧
    (executeQueryRequest c q v).body
      = Json.render (Json.obj [("query", Json.str q), ("variables", v)]) ∧
    ∀ tp tp' : HttpRequest → HttpOutcome,
      tp (executeQueryRequest c q v) = tp' (executeQueryRequest c q v) →
      ExecuteQuery tp c q v = ExecuteQuery tp' c q v := by
  refine ⟨rfl, rfl, rfl, rfl, ?_⟩
  intro tp tp' hagree
  unfold executeQueryRequest at hagree
  unfold ExecuteQuery SendRequest
  rw [hagree]

/-- Witness for C8: two transports agreeing only on POST requests give
identical `ExecuteQuery` results, and the request sent is a POST. -/
theorem executeQuery_request_shape_witness :
    (executeQueryRequest client1 "q" (Json.obj [])).method = "POST" ∧
    ExecuteQuery transport422 client1 "q" (Json.obj [])
      = ExecuteQuery transportPOSTOnly client1 "q" (Json.obj []) :=
  ⟨(executeQuery_request_shape client1 "q" (Json.obj [])).1,
   (executeQuery_request_shape client1 "q" (Json.obj [])).2.2.2.2
     transport422 transportPOSTOnly rfl⟩

/-- C9: every envelope returned by `ExecuteQuery` has `HasNextPage` and
`HasPrevPage` false and `NextPageFunc` and `PrevPageFunc` nil,
regardless of the response (including 200 bodies with a `pageInfo`
substructure): pagination fields are never populated. -/
theorem executeQuery_no_pagination (tp : HttpRequest → HttpOutcome) (c : AirstackClient)
    (q : String) (v : Json) (r : QueryResponse)
    (h : ExecuteQuery tp c q v = Except.ok r) :
    r.HasNextPage = false ∧ r.HasPrevPage = false ∧
      r.NextPageFunc = none ∧ r.PrevPageFunc = none := by
  unfold ExecuteQuery at h
  split at h
  split at h
  · injection h with h
    subst h
    exact ⟨rfl, rfl, rfl, rfl⟩
  · split at h
    · exact Except.noConfusion h
    · split at h
      · injection h with h
        subst h
        exact ⟨rfl, rfl, rfl, rfl⟩
      · injection h with h
        subst h
        exact ⟨rfl, rfl, rfl, rfl⟩

/-- Witness for C9 on a 200 response whose `data` contains a `pageInfo`
substructure: the pagination fields of the envelope stay unset. -/
theorem executeQuery_no_pagination_witness :
    ({ Data := some (Json.obj [("pageInfo", Json.obj [("hasNextPage", Json.bool true)])]),
       StatusCode := 200, Error := "",
       HasNextPage := false, HasPrevPage := false,
       NextPageFunc := none, PrevPageFunc := none } : QueryResponse).HasNextPage = false ∧
    ({ Data := some (Json.obj [("pageInfo", Json.obj [("hasNextPage", Json.bool true)])]),
       StatusCode := 200, Error := "",
       HasNextPage := false, HasPrevPage := false,
       NextPageFunc := none, PrevPageFunc := none } : QueryResponse).NextPageFunc = none :=
  ⟨(executeQuery_no_pagination (constTransport (HttpOutcome.success 200 (Body.json
      (Json.obj [("data", Json.obj [("pageInfo", Json.obj [("hasNextPage", Json.bool true)])])]))))
      client1 "q" (Json.obj []) _ rfl).1,
   (executeQuery_no_pagination (constTransport (HttpOutcome.success 200 (Body.json
      (Json.obj [("data", Json.obj [("pageInfo", Json.obj [("hasNextPage", Json.bool true)])])]))))
      client1 "q" (Json.obj []) _ rfl).2.2.1⟩

/-- Counterexample for C10: an HTTP 200 response with body `null` is not
a valid JSON mapping, yet `ExecuteQuery` returns no call-level error and
a normal envelope (Go's `json.Unmarshal` accepts the JSON literal `null`
for a map, leaving it nil), with `Data` and `Error` both unset. -/
theorem executeQuery_nullBody_counterexample :
    ExecuteQuery transportNullBody client1 "q" (Json.obj []) = Except.ok envelopeEmptyObj :=
  rfl

/-- C10 (amended): for every HTTP 200 response whose body is not valid
JSON, or is valid JSON of a kind other than an object, `ExecuteQuery`
returns a call-level error and no envelope — except for the body `null`,
which unmarshals into a nil map and yields no error and an envelope with
`Data` and `Error` both unset. -/
theorem executeQuery_200_invalid_body (tp : HttpRequest → HttpOutcome)
    (c : AirstackClient) (q : String) (v : Json) :
    (∀ s, tp (executeQueryRequest c q v) = HttpOutcome.success 200 (Body.raw s) →
        ExecuteQuery tp c q v = Except.error (GoError.jsonFailure ("invalid JSON: " ++ s))) ∧
    (∀ j, tp (executeQueryRequest c q v) = HttpOutcome.success 200 (Body.json j) →
        (∀ fs, j ≠ Json.obj fs) → j ≠ Json.null →
        ExecuteQuery tp c q v =
          Except.error (GoError.jsonFailure "cannot unmarshal JSON value into map")) ∧
    (tp (executeQueryRequest c q v) = HttpOutcome.success 200 (Body.json Json.null) →
        ExecuteQuery tp c q v = Except.ok
          { Data := none, StatusCode := 200, Error := "",
            HasNextPage := false, HasPrevPage := false,
            NextPageFunc := none, PrevPageFunc := none }) := by
  refine ⟨?_, ?_, ?_⟩
  · intro s hreq
    unfold executeQueryRequest at hreq
    unfold ExecuteQuery SendRequest
    rw [hreq, sendRequestOutcome_200]
    simp [successStatusCode, unmarshalRawMap]
  · intro j hreq hobj hnull
    unfold executeQueryRequest at hreq
    unfold ExecuteQuery SendRequest
    rw [hreq, sendRequestOutcome_200]
    cases j with
    | null => exact absurd rfl hnull
    | obj fs => exact absurd rfl (hobj fs)
    | bool b => simp [successStatusCode, unmarshalRawMap]
    | num n => simp [successStatusCode, unmarshalRawMap]
    | str s => simp [successStatusCode, unmarshalRawMap]
    | arr xs => simp [successStatusCode, unmarshalRawMap]
  · intro hreq
    unfold executeQueryRequest at hreq
    unfold ExecuteQuery SendRequest
    rw [hreq, sendRequestOutcome_200]
    simp [successStatusCode, unmarshalRawMap, goLookup]

/-- Witness for the amended C10: a 200 response whose body is the
non-JSON bytes `oops` makes `ExecuteQuery` fail at call level. -/
theorem executeQuery_200_invalid_body_witness :
    ExecuteQuery (constTransport (HttpOutcome.success 200 (Body.raw "oops")))
      client1 "q" (Json.obj [])
    = Except.error (GoError.jsonFailure ("invalid JSON: " ++ "oops")) :=
  (executeQuery_200_invalid_body (constTransport (HttpOutcome.success 200 (Body.raw "oops")))
    client1 "q" (Json.obj [])).1 "oops" rfl

end Airstack
